import Mathlib

set_option maxHeartbeats 1000000
set_option maxRecDepth 8192

/-
Shallow embedding of the TLSF allocator in `src/utils/tlsf.rs`.

Machine-integer conventions used throughout:
- `usize` is modelled as 64 bits (the crate targets 64-bit desktop platforms;
  the source itself uses `usize::BITS`).  Values are `Nat` kept below `2 ^ 64`.
- Arithmetic follows release-mode Rust semantics: `+` and `*` wrap modulo
  `2 ^ 64` (resp. `2 ^ 32` for `u32`), and a shift amount is reduced modulo the
  bit width.  Where a quantity provably cannot overflow, the reduction is
  omitted and noted in a comment.
- Fallible or undefined-behaviour paths (`Option::unwrap`, out-of-bounds
  `get().unwrap()`, dereferencing a null/uninitialised pointer) are modelled by
  `Option`, with `none` meaning the Rust code panics or hits UB.

The raw-pointer graph of `BlockHeader` records is modelled as an arena
(`List Header`) addressed by stable indices; the `prev_free` pointer, which the
source deliberately aliases between "address of a list-head slot" and "address
of a header reinterpreted as its first field `next_free`", is modelled by the
sum type `PrevFreePtr`, with uniform read/write operations `readPtr`/`writePtr`
mirroring the reinterpretation trick.
-/

namespace Tlsf

/-- Modulus for 64-bit `usize` arithmetic. -/
def U64 : Nat := 2 ^ 64

/-- Modulus for 32-bit `u32` arithmetic. -/
def U32 : Nat := 2 ^ 32

/-- Bitwise complement on 64-bit values (Rust `!x` on `usize`). -/
def bitNot64 (x : Nat) : Nat := x ^^^ (U64 - 1)

/-- Bitwise complement on 32-bit values (Rust `!x` on `u32`). -/
def bitNot32 (x : Nat) : Nat := x ^^^ (U32 - 1)

/-- Rust release-mode `x << n` on `usize`: shift amount wraps modulo 64. -/
def shl64 (x n : Nat) : Nat := (x <<< (n % 64)) % U64

/-- Rust release-mode `x << n` on `u32`: shift amount wraps modulo 32. -/
def shl32 (x n : Nat) : Nat := (x <<< (n % 32)) % U32

/-- Fuel-bounded helper computing the number of trailing zero bits. -/
def ctzAux : Nat → Nat → Nat
  | 0, _ => 0
  | fuel + 1, x => if x % 2 = 1 then 0 else ctzAux fuel (x / 2) + 1

/-- Rust `usize::trailing_zeros` for values below `2 ^ 64` (`0` gives 64). -/
def ctz64 (x : Nat) : Nat := if x = 0 then 64 else ctzAux 64 x

/-- Fuel-bounded base-2 logarithm (structural so that it kernel-reduces). -/
def log2Aux : Nat → Nat → Nat
  | 0, _ => 0
  | fuel + 1, x => if x ≥ 2 then log2Aux fuel (x / 2) + 1 else 0

/-- Floor base-2 logarithm for values below `2 ^ 64`. -/
def log2_64 (x : Nat) : Nat := log2Aux 64 x

/-- Rust `usize::leading_zeros` for values below `2 ^ 64` (`0` gives 64). -/
def leading_zeros64 (x : Nat) : Nat := if x = 0 then 64 else 63 - log2_64 x

/-- `TLSF::MISSING_MIN_BLOCKS`. -/
def MISSING_MIN_BLOCKS : Nat := 5

/-- `TLSF::MIN_BLOCK_MASK = (1 << MISSING_MIN_BLOCKS) - 1`. -/
def MIN_BLOCK_MASK : Nat := (1 <<< MISSING_MIN_BLOCKS) - 1

/-- `TLSF::MIN_BLOCK_SIZE = 1 << MISSING_MIN_BLOCKS`. -/
def MIN_BLOCK_SIZE : Nat := 1 <<< MISSING_MIN_BLOCKS

/-- `TLSF::SECOND_LEVEL_INDEX`. -/
def SECOND_LEVEL_INDEX : Nat := 5

/-- `BlockHeader::FREE_BLOCK_FLAG`. -/
def FREE_BLOCK_FLAG : Nat := 1

/-- `BlockHeader::FIRST_FREE_BLOCK_FLAG`. -/
def FIRST_FREE_BLOCK_FLAG : Nat := 2

/--
Target of the `prev_free` pointer of a `BlockHeader`.  The source stores a
`*mut *mut BlockHeader` which is either the address of a free-list head slot
(a segregated-list slot or the `header_free_list` field of the allocator) or
the address of another header reinterpreted as its leading `next_free` field.
-/
inductive PrevFreePtr where
  | classHead (fl sl : Nat)
  | headerFreeHead
  | header (i : Nat)
deriving DecidableEq, Repr

/-- Arena image of `BlockHeader<T>`.  Null pointers are `none`; the pool
pointer holds the index of the backing page in `page_pool`. -/
structure Header where
  next_free : Option Nat
  prev_free : Option PrevFreePtr
  next_physical : Option Nat
  prev_physical : Option Nat
  pool : Option Nat
  size_and_flags : Nat
  base_offset : Nat
deriving DecidableEq, Repr

/-- `BlockHeader::new()`. -/
def Header.new : Header :=
  { next_free := none, prev_free := none, next_physical := none,
    prev_physical := none, pool := none, size_and_flags := 0, base_offset := 0 }

/-- `BlockHeader::get_size`: mask off the two flag bits. -/
def Header.get_size (h : Header) : Nat := h.size_and_flags &&& bitNot64 3

/-- `BlockHeader::set_size`: keep the two flag bits, replace the rest. -/
def Header.set_size (h : Header) (size : Nat) : Header :=
  { h with size_and_flags := (size % U64) ||| (h.size_and_flags &&& 3) }

/-- `BlockHeader::is_free_block`. -/
def Header.is_free_block (h : Header) : Bool := (h.size_and_flags &&& FREE_BLOCK_FLAG) != 0

/-- `BlockHeader::set_free_block_flag`. -/
def Header.set_free_block_flag (h : Header) : Header :=
  { h with size_and_flags := h.size_and_flags ||| FREE_BLOCK_FLAG }

/-- `BlockHeader::clear_free_block_flag`. -/
def Header.clear_free_block_flag (h : Header) : Header :=
  { h with size_and_flags := h.size_and_flags &&& bitNot64 FREE_BLOCK_FLAG }

/-- `BlockHeader::is_first_free_block`. -/
def Header.is_first_free_block (h : Header) : Bool :=
  (h.size_and_flags &&& FIRST_FREE_BLOCK_FLAG) != 0

/-- `BlockHeader::set_first_free_block_flag`. -/
def Header.set_first_free_block_flag (h : Header) : Header :=
  { h with size_and_flags := h.size_and_flags ||| FIRST_FREE_BLOCK_FLAG }

/-- `BlockHeader::clear_first_free_block_flag`. -/
def Header.clear_first_free_block_flag (h : Header) : Header :=
  { h with size_and_flags := h.size_and_flags &&& bitNot64 FIRST_FREE_BLOCK_FLAG }

/-- `SecondLevel<T>`: a second-level occupancy mask and 32 list-head slots. -/
structure SecondLevel where
  free_mask : Nat
  list_headers : List (Option Nat)
deriving DecidableEq, Repr

/-- `SecondLevel::new()`. -/
def SecondLevel.new : SecondLevel :=
  { free_mask := 0, list_headers := List.replicate 32 none }

/-- `TLSF<T>`: the allocator state.  `headers` is the flattened `header_pool`
arena; `page_count` is the length of `page_pool` (pages are identified by
their registration index). -/
structure TLSFState where
  free_first_level_mask : Nat
  segregated_lists : List SecondLevel
  headers : List Header
  header_free_list : Option Nat
  page_count : Nat
deriving DecidableEq, Repr

/-- Read through a `*mut *mut BlockHeader`: a head-slot dereference or a
header reinterpreted as its `next_free` field.  `none` models an invalid
dereference. -/
def readPtr (s : TLSFState) (p : PrevFreePtr) : Option (Option Nat) :=
  match p with
  | PrevFreePtr.classHead fl sl =>
    match s.segregated_lists.get? fl with
    | none => none
    | some sec => sec.list_headers.get? sl
  | PrevFreePtr.headerFreeHead => some s.header_free_list
  | PrevFreePtr.header i =>
    match s.headers.get? i with
    | none => none
    | some h => some h.next_free

/-- Write through a `*mut *mut BlockHeader` (see `readPtr`). -/
def writePtr (s : TLSFState) (p : PrevFreePtr) (v : Option Nat) : Option TLSFState :=
  match p with
  | PrevFreePtr.classHead fl sl =>
    match s.segregated_lists.get? fl with
    | none => none
    | some sec =>
      if sl < sec.list_headers.length then
        some { s with segregated_lists :=
                 s.segregated_lists.set fl ({ sec with list_headers := sec.list_headers.set sl v }) }
      else none
  | PrevFreePtr.headerFreeHead => some { s with header_free_list := v }
  | PrevFreePtr.header i =>
    match s.headers.get? i with
    | none => none
    | some h => some { s with headers := s.headers.set i ({ h with next_free := v }) }

/-- `BlockHeader::remove_from_free_list` on the header at index `i`. -/
def remove_from_free_list (s : TLSFState) (i : Nat) : Option TLSFState :=
  match s.headers.get? i with
  | none => none
  | some h =>
    match h.prev_free with
    | none => none
    | some p =>
      match writePtr s p h.next_free with
      | none => none
      | some s1 =>
        match h.next_free with
        | none => some s1
        | some j =>
          match s1.headers.get? j with
          | none => none
          | some hj =>
            let hj1 := { hj with prev_free := some p }
            let hj2 := if h.is_first_free_block
                       then hj1.set_first_free_block_flag
                       else hj1
            some { s1 with headers := s1.headers.set j hj2 }

/-- `BlockHeader::insert_to_free_list_head` on the header at index `i`, with
`head` the address of the list-head pointer. -/
def insert_to_free_list_head (s : TLSFState) (i : Nat) (head : PrevFreePtr) : Option TLSFState :=
  match s.headers.get? i with
  | none => none
  | some h =>
    let s1 := { s with headers := s.headers.set i h.set_first_free_block_flag }
    match readPtr s1 head with
    | none => none
    | some cur =>
      let s2opt : Option TLSFState :=
        match cur with
        | some j =>
          match s1.headers.get? j with
          | none => none
          | some hj =>
            let hjn := { hj.clear_first_free_block_flag with
                           prev_free := some (PrevFreePtr.header i) }
            some { s1 with headers := s1.headers.set j hjn }
        | none => some s1
      match s2opt with
      | none => none
      | some s2 =>
        match s2.headers.get? i with
        | none => none
        | some h2 =>
          match readPtr s2 head with
          | none => none
          | some cur2 =>
            let h3 := { h2 with next_free := cur2, prev_free := some head }
            let s3 := { s2 with headers := s2.headers.set i h3 }
            writePtr s3 head (some i)

/-- `BlockHeader::remove_from_physical_list` on the header at index `i`. -/
def remove_from_physical_list (s : TLSFState) (i : Nat) : Option TLSFState :=
  match s.headers.get? i with
  | none => none
  | some h =>
    let s1opt : Option TLSFState :=
      match h.prev_physical with
      | none => some s
      | some p =>
        match s.headers.get? p with
        | none => none
        | some hp => some { s with headers := s.headers.set p ({ hp with next_physical := h.next_physical }) }
    match s1opt with
    | none => none
    | some s1 =>
      match h.next_physical with
      | none => some s1
      | some nx =>
        match s1.headers.get? nx with
        | none => none
        | some hn => some { s1 with headers := s1.headers.set nx ({ hn with prev_physical := h.prev_physical }) }

/-- `BlockHeader::insert_to_physical_list_after`: insert header `i` after
header `prev` in the physical list. -/
def insert_to_physical_list_after (s : TLSFState) (i prev : Nat) : Option TLSFState :=
  match s.headers.get? prev with
  | none => none
  | some hp =>
    let s1opt : Option TLSFState :=
      match hp.next_physical with
      | none => some s
      | some nx =>
        match s.headers.get? nx with
        | none => none
        | some hn => some { s with headers := s.headers.set nx ({ hn with prev_physical := some i }) }
    match s1opt with
    | none => none
    | some s1 =>
      match s1.headers.get? i with
      | none => none
      | some h =>
        let h2 := { h with next_physical := hp.next_physical, prev_physical := some prev }
        let s2 := { s1 with headers := s1.headers.set i h2 }
        match s2.headers.get? prev with
        | none => none
        | some hp2 => some { s2 with headers := s2.headers.set prev ({ hp2 with next_physical := some i }) }

/-- `TLSF::map_request_size` (verbatim: `last_bit` is computed from
`trailing_zeros`, subtractions are saturating, the second level is truncated
to `u32`). -/
def map_request_size (size : Nat) : Nat × Nat :=
  let last_bit := 64 - ctz64 size
  let first_level := last_bit - MISSING_MIN_BLOCKS
  let masked_size := size &&& bitNot64 (shl64 1 last_bit)
  let second_level := (masked_size >>> (last_bit - SECOND_LEVEL_INDEX)) % U32
  (first_level, second_level)

/-- `TLSF::map_block_size`.  The `end_range` additions and multiplications
wrap modulo `2 ^ 64`; `second_level + 1` wraps modulo `2 ^ 32` (u32). -/
def map_block_size (size : Nat) : Nat × Nat :=
  let first_level := (map_request_size size).1
  let second_level := (map_request_size size).2
  let end_range := (shl64 1 (first_level + SECOND_LEVEL_INDEX) + shl64 1 first_level * second_level) % U64
  if size = end_range then
    (first_level, second_level)
  else
    if (second_level + 1) % U32 ≥ 1 <<< SECOND_LEVEL_INDEX then
      (first_level + 1, 0)
    else
      (first_level, (second_level + 1) % U32)

/-- `TLSF::first_one_after_at` (verbatim, including the `& ((1 << after_at) - 1)`
mask that keeps only the bits below `after_at` and the `leading_zeros() < 32`
test on the 64-bit value). -/
def first_one_after_at (mask after_at : Nat) : Option Nat :=
  let lz := leading_zeros64 (mask &&& (shl64 1 after_at - 1))
  if lz < 32 then some lz else none

/-- `TLSF::find_free_block_index`.  Result `none` models a panic inside the
function (an `unwrap` of `None` or an out-of-bounds `get().unwrap()`);
`some none` models the clean "no suitable block" result. -/
def find_free_block_index (s : TLSFState) (size : Nat) : Option (Option (Nat × Nat)) :=
  match first_one_after_at s.free_first_level_mask (map_request_size size).1 with
  | none => some none
  | some selected_first_level =>
    if (map_request_size size).1 = selected_first_level then
      match s.segregated_lists.get? selected_first_level with
      | none => none
      | some second_level_info =>
        match first_one_after_at second_level_info.free_mask (map_request_size size).2 with
        | some free_second_level => some (some (selected_first_level, free_second_level))
        | none =>
          match first_one_after_at s.free_first_level_mask ((map_request_size size).1 + 1) with
          | none => some none
          | some new_first_level =>
            match s.segregated_lists.get? new_first_level with
            | none => none
            | some info2 =>
              match first_one_after_at info2.free_mask 0 with
              | some free_second_level => some (some (new_first_level, free_second_level))
              | none => none
    else
      match s.segregated_lists.get? selected_first_level with
      | none => none
      | some second_level_info =>
        match first_one_after_at second_level_info.free_mask 0 with
        | some free_second_level => some (some (selected_first_level, free_second_level))
        | none => none

/-- `TLSF::new_for_max_size`.  The `u32` subtraction
`first_level_index - MISSING_MIN_BLOCKS` is modelled by truncated `Nat`
subtraction; the two agree whenever `max_block_size.trailing_zeros() <= 59`
(otherwise the Rust subtraction underflows), which holds for every use in this
file. -/
def new_for_max_size (max_block_size : Nat) : TLSFState :=
  let first_level_index := 64 - ctz64 max_block_size
  { free_first_level_mask := 0
    segregated_lists := List.replicate (first_level_index - MISSING_MIN_BLOCKS) SecondLevel.new
    headers := []
    header_free_list := none
    page_count := 0 }

/-- `TLSF::take_block`.  Outer `none` models a panic; the inner `Option Nat`
is the `Option<NonNull<BlockHeader>>` result. -/
def take_block (s : TLSFState) (first_level_index second_level_index : Nat) :
    Option (TLSFState × Option Nat) :=
  match s.segregated_lists.get? first_level_index with
  | none => none
  | some second_level =>
    match second_level.list_headers.get? second_level_index with
    | none => none
    | some block_header =>
      match block_header with
      | some i =>
        match remove_from_free_list s i with
        | none => none
        | some s1 =>
          match s1.segregated_lists.get? first_level_index with
          | none => none
          | some second_level1 =>
            match second_level1.list_headers.get? second_level_index with
            | none => none
            | some slot =>
              if slot.isNone then
                let new_mask := second_level1.free_mask &&& bitNot32 (shl32 1 second_level_index)
                let second_level2 := { second_level1 with free_mask := new_mask }
                let lists2 := s1.segregated_lists.set first_level_index second_level2
                let s2 := { s1 with segregated_lists := lists2 }
                let s3 := if new_mask = 0 then
                            { s2 with free_first_level_mask :=
                                s2.free_first_level_mask &&& bitNot64 (shl64 1 first_level_index) }
                          else s2
                some (s3, some i)
              else
                some (s1, some i)
      | none => some (s, none)

/-- `TLSF::return_block_no_merge`.  `NonZeroUsize::new(size).unwrap()` panics
when the arithmetic size is zero. -/
def return_block_no_merge (s : TLSFState) (i : Nat) : Option TLSFState :=
  match s.headers.get? i with
  | none => none
  | some block =>
    let size := block.get_size
    if size = 0 then none
    else
      let first_level := (map_block_size size).1
      let second_level := (map_block_size size).2
      let s1 := { s with free_first_level_mask := s.free_first_level_mask ||| shl64 1 first_level }
      match s1.segregated_lists.get? first_level with
      | none => none
      | some second_level_info =>
        let info1 := { second_level_info with
                         free_mask := second_level_info.free_mask ||| shl32 1 second_level }
        let s2 := { s1 with segregated_lists := s1.segregated_lists.set first_level info1 }
        match second_level_info.list_headers.get? second_level with
        | none => none
        | some _ =>
          insert_to_free_list_head s2 i (PrevFreePtr.classHead first_level second_level)

/-- `TLSF::allocate_block_header`.  A fresh batch extends the arena by 64
headers; entries 1..63 of the batch are threaded onto the header free list and
entry 0 is returned. -/
def allocate_block_header (s : TLSFState) : Option (TLSFState × Nat) :=
  match s.header_free_list with
  | some i =>
    match remove_from_free_list s i with
    | none => none
    | some s1 => some (s1, i)
  | none =>
    let n := s.headers.length
    let s1 := { s with headers := s.headers ++ List.replicate 64 Header.new }
    match (List.range 63).foldlM
            (fun st k => insert_to_free_list_head st (n + 1 + k) PrevFreePtr.headerFreeHead) s1 with
    | none => none
    | some s2 => some (s2, n)

/-- `TLSF::free_block_header`. -/
def free_block_header (s : TLSFState) (i : Nat) : Option TLSFState :=
  insert_to_free_list_head s i PrevFreePtr.headerFreeHead

/-- `TLSF::allocate`.  The result is `none` on a panic, `some (s, none)` for
the clean "no suitable block found" return, and `some (s, some i)` for a
successful allocation of the block whose header has index `i`. -/
def allocate (s : TLSFState) (size : Nat) : Option (TLSFState × Option Nat) :=
  match find_free_block_index s size with
  | none => none
  | some none => some (s, none)
  | some (some (first_level, second_level)) =>
    match take_block s first_level second_level with
    | none => none
    | some (s1, taken) =>
      match taken with
      | none => none
      | some i =>
        match s1.headers.get? i with
        | none => none
        | some header =>
          let header1 := header.clear_free_block_flag
          let s2 := { s1 with headers := s1.headers.set i header1 }
          let rounded_size := ((size + MIN_BLOCK_MASK) % U64) &&& bitNot64 MIN_BLOCK_MASK
          let split_size := (header1.get_size + U64 - rounded_size) % U64
          if split_size > 0 then
            match allocate_block_header s2 with
            | none => none
            | some (s3, j) =>
              match s3.headers.get? j with
              | none => none
              | some split_block =>
                let s4 := { s3 with headers := s3.headers.set j split_block.set_free_block_flag }
                match s4.headers.get? i with
                | none => none
                | some hi =>
                  let s5 := { s4 with headers := s4.headers.set i (hi.set_size rounded_size) }
                  match s5.headers.get? i, s5.headers.get? j with
                  | some hi5, some hj5 =>
                    let hj6 := { hj5.set_size split_size with
                                   base_offset := (hi5.base_offset + rounded_size) % U64,
                                   pool := hi5.pool }
                    let s6 := { s5 with headers := s5.headers.set j hj6 }
                    match insert_to_physical_list_after s6 j i with
                    | none => none
                    | some s7 =>
                      match return_block_no_merge s7 j with
                      | none => none
                      | some s8 => some (s8, some i)
                  | _, _ => none
          else
            some (s2, some i)

/-- `TLSF::free` applied to the allocation handle holding header index `i`. -/
def free (s : TLSFState) (i : Nat) : Option TLSFState :=
  match s.headers.get? i with
  | none => none
  | some header =>
    let size0 := header.get_size
    let off0 := header.base_offset
    let step1 : Option (TLSFState × Nat × Nat) :=
      match header.prev_physical with
      | none => some (s, size0, off0)
      | some p =>
        match s.headers.get? p with
        | none => none
        | some hp =>
          if hp.is_free_block then
            match remove_from_free_list s p with
            | none => none
            | some s1 =>
              match remove_from_physical_list s1 p with
              | none => none
              | some s2 =>
                match s2.headers.get? p with
                | none => none
                | some hp2 =>
                  match free_block_header s2 p with
                  | none => none
                  | some s3 => some (s3, (size0 + hp2.get_size) % U64, hp2.base_offset)
          else some (s, size0, off0)
    match step1 with
    | none => none
    | some (sa, size1, off1) =>
      let step2 : Option (TLSFState × Nat) :=
        match sa.headers.get? i with
        | none => none
        | some header1 =>
          match header1.next_physical with
          | none => some (sa, size1)
          | some nx =>
            match sa.headers.get? nx with
            | none => none
            | some hn =>
              if hn.is_free_block then
                match remove_from_free_list sa nx with
                | none => none
                | some s1 =>
                  match remove_from_physical_list s1 nx with
                  | none => none
                  | some s2 =>
                    match s2.headers.get? nx with
                    | none => none
                    | some hn2 =>
                      match free_block_header s2 nx with
                      | none => none
                      | some s3 => some (s3, (size1 + hn2.get_size) % U64)
              else some (sa, size1)
      match step2 with
      | none => none
      | some (sb, size2) =>
        match sb.headers.get? i with
        | none => none
        | some header2 =>
          let header3 := { header2.set_size size2 with base_offset := off1 }
          let sc := { sb with headers := sb.headers.set i header3 }
          return_block_no_merge sc i

/-- `TLSF::new_page`: register a backing page of the given size.  The page is
identified by its index in `page_pool`. -/
def new_page (s : TLSFState) (size : Nat) : Option TLSFState :=
  let page_index := s.page_count
  let s0 := { s with page_count := s.page_count + 1 }
  match allocate_block_header s0 with
  | none => none
  | some (s1, i) =>
    match s1.headers.get? i with
    | none => none
    | some header =>
      let header1 := { header with next_physical := none, prev_physical := none }
      let header2 := header1.set_free_block_flag
      let header3 := { header2.set_size size with base_offset := 0, pool := some page_index }
      let s2 := { s1 with headers := s1.headers.set i header3 }
      return_block_no_merge s2 i

/-! Claim-side observers.  These are not translations of source functions;
they only read the model state so that claim statements can name the
quantities the specification talks about. -/

/-- Head pointer of the segregated free list of class `(fl, sl)`. -/
def slotHead (s : TLSFState) (fl sl : Nat) : Option Nat :=
  match s.segregated_lists.get? fl with
  | none => none
  | some sec => (sec.list_headers.get? sl).getD none

/-- Raw `size_and_flags` word of the header at index `i` (0 if absent). -/
def blockFlags (s : TLSFState) (i : Nat) : Nat :=
  match s.headers.get? i with
  | none => 0
  | some h => h.size_and_flags

/-- Arithmetic block size of the header at index `i` (0 if absent). -/
def blockSize (s : TLSFState) (i : Nat) : Nat :=
  match s.headers.get? i with
  | none => 0
  | some h => h.get_size

/-- Fuel-bounded walk of a free list collecting the block sizes. -/
def freeListSizesAux (hs : List Header) : Nat → Option Nat → List Nat
  | 0, _ => []
  | _ + 1, none => []
  | fuel + 1, some i =>
    match hs.get? i with
    | none => []
    | some h => h.get_size :: freeListSizesAux hs fuel h.next_free

/-- Sizes of the free blocks held in the segregated list of class `(fl, sl)`. -/
def freeListSizes (s : TLSFState) (fl sl : Nat) : List Nat :=
  freeListSizesAux s.headers (s.headers.length + 1) (slotHead s fl sl)

/-- Lexicographic order on `(first level, second level)` class pairs, as used
by the specification's monotonicity property. -/
def pairLexLe (a b : Nat × Nat) : Bool :=
  decide (a.1 < b.1 ∨ (a.1 = b.1 ∧ a.2 ≤ b.2))

/-- Exact (non-wrapping) start boundary of size class `(fl, sl)`:
`2 ^ (fl + SECOND_LEVEL_INDEX) + sl * 2 ^ fl`.  This is the quantity the
source's `end_range` expression is meant to compute. -/
def class_start_boundary (fl sl : Nat) : Nat :=
  2 ^ (fl + SECOND_LEVEL_INDEX) + sl * 2 ^ fl

/-- The ceiling-rounding companion of `map_request_size` as the specification
words it: keep the request class when `size` sits exactly on that class's
boundary, otherwise bump the second level by one, carrying into the first
level (second level reset to 0) on overflow past 31.  Stated with exact
arithmetic; used to compare `map_block_size` against the claim. -/
def map_block_size_claimed (size : Nat) : Nat × Nat :=
  let first_level := (map_request_size size).1
  let second_level := (map_request_size size).2
  if size = class_start_boundary first_level second_level then
    (first_level, second_level)
  else
    if second_level + 1 ≥ 1 <<< SECOND_LEVEL_INDEX then
      (first_level + 1, 0)
    else
      (first_level, second_level + 1)

/-- Allocator freshly constructed with `new_for_max_size(1)` (59 first-level
classes) after registering a single page of the given size. -/
def tlsf_after_page (page_size : Nat) : Option TLSFState :=
  new_page (new_for_max_size 1) page_size

/-- A header exactly as `allocate` leaves the header of a served block: free
flag cleared, sole block of its page (no physical neighbours), arithmetic
size 32, pool and offset set. -/
def allocated_header : Header :=
  { next_free := none, prev_free := none, next_physical := none,
    prev_physical := none, pool := some 0, size_and_flags := 32, base_offset := 0 }

/-- Allocator state holding exactly one outstanding 32-byte allocation. -/
def allocated_state : TLSFState :=
  { new_for_max_size 1 with headers := [allocated_header], page_count := 1 }

/-- Witness data for the free-list round-trip: the current first list element
(first-free flag set, `prev_free` aimed at the list-head slot). -/
def witness_first_header : Header :=
  { next_free := none, prev_free := some PrevFreePtr.headerFreeHead,
    next_physical := none, prev_physical := none, pool := none,
    size_and_flags := 2, base_offset := 0 }

/-- Witness data for the free-list round-trip: a detached header. -/
def witness_new_header : Header := Header.new

/-- Witness state for the free-list round-trip: a one-element header free
list (`witness_first_header` at index 0) plus the detached header at index 1. -/
def witness_state : TLSFState :=
  { free_first_level_mask := 0, segregated_lists := [],
    headers := [witness_first_header, witness_new_header],
    header_free_list := some 0, page_count := 0 }

/-! Helper lemmas about list updates and 64-bit bit operations. -/

theorem get?_set_same {α : Type} (l : List α) (i : Nat) (a b : α)
    (hb : l.get? i = some b) : (l.set i a).get? i = some a := by
  rw [List.get?_eq_getElem?] at hb ⊢
  have hlen : i < l.length := (List.getElem?_eq_some.mp hb).1
  rw [List.getElem?_set_self]
  exact hlen

theorem get?_set_other {α : Type} (l : List α) (i j : Nat) (a : α)
    (hij : i ≠ j) : (l.set i a).get? j = l.get? j := by
  rw [List.get?_eq_getElem?, List.get?_eq_getElem?, List.getElem?_set_ne hij]

theorem testBit_two (i : Nat) : (2 : Nat).testBit i = decide (1 = i) := by
  have h2 : (2 : Nat) = 2 ^ 1 := by norm_num
  rw [h2, Nat.testBit_two_pow]

theorem lor_two_and_two (x : Nat) : (x ||| 2) &&& 2 = 2 := by
  apply Nat.eq_of_testBit_eq
  intro i
  rw [Nat.testBit_and, Nat.testBit_or, testBit_two]
  by_cases hi : 1 = i <;> simp [hi]

theorem testBit_one_of_and_two {x : Nat} (h : x &&& 2 = 2) : x.testBit 1 = true := by
  have hc := congrArg (fun y => Nat.testBit y 1) h
  simp only [Nat.testBit_and, testBit_two] at hc
  simpa using hc

theorem and_not_two_or_two {x : Nat} (hx : x < 2 ^ 64) (hb : x.testBit 1 = true) :
    (x &&& bitNot64 2) ||| 2 = x := by
  apply Nat.eq_of_testBit_eq
  intro i
  rw [Nat.testBit_or, Nat.testBit_and, bitNot64, U64, Nat.testBit_xor,
      Nat.testBit_two_pow_sub_one, testBit_two]
  by_cases hi : 1 = i
  · subst hi
    simp [hb]
  · by_cases h64 : i < 64
    · simp [hi, h64]
    · have hxi : x.testBit i = false :=
        Nat.testBit_lt_two_pow (lt_of_lt_of_le hx (Nat.pow_le_pow_right (by omega) (by omega)))
      simp [hi, h64, hxi]

theorem shl64_one (n : Nat) : shl64 1 n = 2 ^ (n % 64) := by
  unfold shl64 U64
  rw [Nat.shiftLeft_eq, one_mul]
  exact Nat.mod_eq_of_lt (Nat.pow_lt_pow_right (by omega) (Nat.mod_lt _ (by omega)))

/-! The two-level search of `find_free_block_index` can never locate a class.
The first-level scan keeps only mask bits strictly below the requested level
and answers with a 64-bit leading-zero count below 32, so a successful scan
forces `first_level > 32` while the answer itself is at most 31; the two
branches of `find_free_block_index` then either contradict each other or run
`first_one_after_at _ 0`, whose mask `m &&& ((1 <<< 0) - 1)` is always zero. -/

theorem pow_log2Aux_le (fuel : Nat) : ∀ x : Nat, x ≠ 0 → x < 2 ^ fuel →
    2 ^ log2Aux fuel x ≤ x := by
  induction fuel with
  | zero =>
    intro x hx0 hxlt
    omega
  | succ fuel ih =>
    intro x hx0 hxlt
    have hstep : log2Aux (fuel + 1) x = if x ≥ 2 then log2Aux fuel (x / 2) + 1 else 0 := rfl
    by_cases h2 : x ≥ 2
    · rw [hstep, if_pos h2]
      have hdiv : x / 2 ≠ 0 := by omega
      have hdivlt : x / 2 < 2 ^ fuel := by
        have hp : 2 ^ (fuel + 1) = 2 * 2 ^ fuel := by ring
        omega
      have := ih (x / 2) hdiv hdivlt
      calc 2 ^ (log2Aux fuel (x / 2) + 1) = 2 * 2 ^ log2Aux fuel (x / 2) := by ring
        _ ≤ 2 * (x / 2) := by omega
        _ ≤ x := by omega
    · rw [hstep, if_neg h2]
      omega

theorem first_one_after_at_zero (m : Nat) : first_one_after_at m 0 = none := by
  have h0 : shl64 1 0 - 1 = 0 := by decide
  unfold first_one_after_at
  rw [h0, Nat.and_zero]
  rfl

theorem first_one_after_at_bounds {m n i : Nat}
    (h : first_one_after_at m n = some i) : i ≤ 31 ∧ 32 < n % 64 := by
  unfold first_one_after_at at h
  set v := m &&& (shl64 1 n - 1) with hv
  by_cases hlt : leading_zeros64 v < 32
  case neg => rw [if_neg hlt] at h; exact absurd h (by simp)
  case pos =>
  rw [if_pos hlt] at h
  have hi : i = leading_zeros64 v := (Option.some.inj h).symm
  by_cases hv0 : v = 0
  · rw [hv0] at hlt
    simp [leading_zeros64] at hlt
  · have h3 : v ≤ shl64 1 n - 1 := hv ▸ Nat.and_le_right
    have h4 : v < 2 ^ (n % 64) := by
      rw [shl64_one] at h3
      have h1 : (1 : Nat) ≤ 2 ^ (n % 64) := Nat.one_le_two_pow
      omega
    have hv64 : v < 2 ^ 64 :=
      lt_of_lt_of_le h4 (Nat.pow_le_pow_right (by omega) (by omega))
    have hlz : leading_zeros64 v = 63 - log2_64 v := by
      unfold leading_zeros64
      rw [if_neg hv0]
    rw [hlz] at hlt hi
    have hlog : 32 ≤ log2_64 v := by omega
    have h2 : (2 : Nat) ^ 32 ≤ v :=
      le_trans (Nat.pow_le_pow_right (by omega) hlog) (pow_log2Aux_le 64 v hv0 hv64)
    have h6 : 32 < n % 64 := by
      by_contra hc
      push_neg at hc
      exact absurd (lt_of_le_of_lt h2 h4) (not_lt.mpr (Nat.pow_le_pow_right (by omega) hc))
    exact ⟨by omega, h6⟩

theorem map_request_size_fst_le (size : Nat) : (map_request_size size).1 ≤ 59 := by
  have h : (map_request_size size).1 = 64 - ctz64 size - 5 := rfl
  rw [h]
  omega

theorem find_never_locates (s : TLSFState) (size : Nat) :
    (find_free_block_index s size).getD none = none := by
  cases hfo : first_one_after_at s.free_first_level_mask (map_request_size size).1 with
  | none =>
    unfold find_free_block_index
    rw [hfo]
    rfl
  | some sel =>
    obtain ⟨hsel, hgt⟩ := first_one_after_at_bounds hfo
    have hle := map_request_size_fst_le size
    rw [Nat.mod_eq_of_lt (by omega)] at hgt
    have hne : ¬ ((map_request_size size).1 = sel) := by omega
    unfold find_free_block_index
    rw [hfo]
    dsimp only
    rw [if_neg hne]
    cases hg : s.segregated_lists.get? sel with
    | none =>
      rfl
    | some info =>
      dsimp only
      rw [first_one_after_at_zero]
      rfl

theorem allocate_result (s : TLSFState) (size : Nat) :
    allocate s size = none ∨ allocate s size = some (s, none) := by
  have hf := find_never_locates s size
  cases hfo : find_free_block_index s size with
  | none =>
    left
    unfold allocate
    rw [hfo]
  | some o =>
    rw [hfo] at hf
    have ho : o = none := hf
    subst ho
    right
    unfold allocate
    rw [hfo]

/-- Claim C1: no false exhaustion — refuted on the code.  With a single
32-byte page registered, class `(54, 1)` (at or above the request class
`map_request_size 32 = (54, 0)`) holds free blocks summing to `32 ≥ 32`, yet
`find_free_block_index` reports no occupied class and `allocate` returns the
"no suitable block" result. -/
theorem claim_C1 :
    (tlsf_after_page 32).map (fun s => freeListSizes s 54 1) = some [32] ∧
    map_request_size 32 = (54, 0) ∧
    pairLexLe (map_request_size 32) (54, 1) = true ∧
    (tlsf_after_page 32).map (fun s => find_free_block_index s 32) = some (some none) ∧
    (tlsf_after_page 32).bind (fun s => allocate s 32) =
      (tlsf_after_page 32).map (fun s => (s, none)) :=
  ⟨rfl, rfl, rfl, rfl, rfl⟩

/-- Claim C2: coalescing idempotence — refuted on the code.  In every state
and for every request, `allocate` never returns an allocation (its served
block is always `none`), so no allocation can ever be outstanding and the
allocate/free/re-allocate scenario cannot start; concretely, with a 1024-byte
page registered the scenario's first allocation of 512 bytes panics
(`allocate` returns the panic result `none`). -/
theorem claim_C2 :
    (∀ (s : TLSFState) (size : Nat), Option.bind (allocate s size) (fun r => r.2) = none) ∧
    (tlsf_after_page 1024).isSome = true ∧
    (tlsf_after_page 1024).bind (fun s => allocate s 512) = none := by
  refine ⟨fun s size => ?_, rfl, rfl⟩
  rcases allocate_result s size with h | h <;> rw [h] <;> rfl

/-- Claim C3: free-flag consistency — refuted on the code.  Freeing a sole
allocated 32-byte block reinserts it at the head of class `(54, 1)` (so it is
reachable from a segregated free-list head) but `free` never sets
`FREE_BLOCK_FLAG`, so the reinserted block's free flag is clear. -/
theorem claim_C3 :
    (free allocated_state 0).map
        (fun s => (slotHead s 54 1, blockFlags s 0 &&& FREE_BLOCK_FLAG)) =
      some (some 0, 0) :=
  rfl

/-- Claim C4: bit-scan primitive — refuted on the code.  Bit 0 of the mask 1
is set and is at or after position 0, so the claimed result is `some 0`, but
`first_one_after_at 1 0` returns `none` (the code keeps only the mask bits
strictly below the position and counts leading rather than trailing zeros). -/
theorem claim_C4 :
    first_one_after_at 1 0 = none ∧ Nat.testBit 1 0 = true :=
  ⟨rfl, rfl⟩

/-- Claim C5: class monotonicity — refuted on the code.  `34 < 36`, but
`map_request_size` maps 34 to `(58, 0)` and 36 to `(57, 0)`, which is
lexicographically decreasing (the code derives the level from
`trailing_zeros`, i.e. from the lowest rather than the highest set bit). -/
theorem claim_C5 :
    34 < 36 ∧
    map_request_size 34 = (58, 0) ∧
    map_request_size 36 = (57, 0) ∧
    pairLexLe (map_request_size 34) (map_request_size 36) = false :=
  ⟨by omega, rfl, rfl, rfl⟩

/-- Claim C6: ceiling rounding of `map_block_size` — refuted on the code.
For size 1 the request class is `(59, 0)`, whose exact boundary
`2 ^ 64 + 0` differs from 1, so the claimed rounding
(`map_block_size_claimed`) bumps the second level to `(59, 1)`; the code's
boundary expression `1 << (59 + 5)` wraps its shift amount (panicking in
debug builds), computes `end_range = 1 = size`, and returns `(59, 0)`
without the increment. -/
theorem claim_C6 :
    map_request_size 1 = (59, 0) ∧
    map_block_size 1 = (59, 0) ∧
    map_block_size_claimed 1 = (59, 1) :=
  ⟨rfl, rfl, rfl⟩

/-- Claim C7: split postconditions of `allocate` — refuted on the code.  With
a single free 64-byte block registered (free flag set) and a request of 32
bytes (which rounds to 32, strictly smaller than 64), `allocate` must select
and split the block; instead it panics inside `find_free_block_index`
(`allocate` returns the panic result `none`), so the split never occurs. -/
theorem claim_C7 :
    (tlsf_after_page 64).map
        (fun s => (blockSize s 0, blockFlags s 0 &&& FREE_BLOCK_FLAG)) = some (64, 1) ∧
    ((32 + MIN_BLOCK_MASK) % U64) &&& bitNot64 MIN_BLOCK_MASK = 32 ∧
    32 < 64 ∧
    (tlsf_after_page 64).bind (fun s => allocate s 32) = none :=
  ⟨rfl, rfl, by omega, rfl⟩

/-- Claim C8: capacity exhaustion is non-panicking — refuted on the code.  In
the reachable state with one 32-byte page registered, `allocate 1` panics
(`unwrap` of `None` in `find_free_block_index`), modelled by the result
`none`, instead of returning `Some` or the clean `None`. -/
theorem claim_C8 :
    (tlsf_after_page 32).isSome = true ∧
    (tlsf_after_page 32).bind (fun s => allocate s 1) = none :=
  ⟨rfl, rfl⟩

/-- Claim C9: minimum granularity invariant — refuted on the code.
`new_page` stores the caller-supplied page size un-rounded, so registering a
40-byte page yields a live block of arithmetic size 40, which is not a
multiple of the 32-byte minimum block size. -/
theorem claim_C9 :
    (tlsf_after_page 40).map (fun s => blockSize s 0) = some 40 ∧
    MIN_BLOCK_SIZE = 32 ∧
    40 % MIN_BLOCK_SIZE = 8 :=
  ⟨rfl, rfl, rfl⟩

/-- Claim C10: free-list insert/remove round-trip — confirmed.  For every
free list whose current first element `j` is valid (its `prev_free` aims at
the list-head slot, its first-free flag is set, its flag word fits in 64
bits) and every arena header `h` distinct from `j`, inserting `h` at the head
and then removing it restores the head pointer, restores `j`'s `prev_free`
linkage and first-free flag (header `j` is bitwise unchanged), and leaves
every header other than `h` and the rest of the allocator state unchanged. -/
theorem claim_C10 (s : TLSFState) (h j : Nat) (hh hj : Header)
    (hhget : s.headers.get? h = some hh)
    (hhead : s.header_free_list = some j)
    (hne : j ≠ h)
    (hjget : s.headers.get? j = some hj)
    (hjprev : hj.prev_free = some PrevFreePtr.headerFreeHead)
    (hjflag : hj.size_and_flags &&& FIRST_FREE_BLOCK_FLAG = FIRST_FREE_BLOCK_FLAG)
    (hjsize : hj.size_and_flags < U64) :
    ∃ s1 s2,
      insert_to_free_list_head s h PrevFreePtr.headerFreeHead = some s1 ∧
      remove_from_free_list s1 h = some s2 ∧
      s2.header_free_list = s.header_free_list ∧
      s2.headers.get? j = some hj ∧
      (∀ k, k ≠ h → s2.headers.get? k = s.headers.get? k) ∧
      s2.segregated_lists = s.segregated_lists ∧
      s2.free_first_level_mask = s.free_first_level_mask ∧
      s2.page_count = s.page_count := by
  have hne2 : h ≠ j := fun q => hne q.symm
  have hflags : (hj.size_and_flags &&& bitNot64 2) ||| 2 = hj.size_and_flags :=
    and_not_two_or_two hjsize (testBit_one_of_and_two hjflag)
  have e1 : (s.headers.set h hh.set_first_free_block_flag).get? j = some hj := by
    rw [get?_set_other _ _ _ _ hne2]
    exact hjget
  have e2 : ((s.headers.set h hh.set_first_free_block_flag).set j
        ({ hj.clear_first_free_block_flag with
             prev_free := some (PrevFreePtr.header h) })).get? h
      = some hh.set_first_free_block_flag := by
    rw [get?_set_other _ _ _ _ hne]
    exact get?_set_same _ _ _ _ hhget
  have e3 : (((s.headers.set h hh.set_first_free_block_flag).set j
        ({ hj.clear_first_free_block_flag with
             prev_free := some (PrevFreePtr.header h) })).set h
        ({ hh.set_first_free_block_flag with
             next_free := some j, prev_free := some PrevFreePtr.headerFreeHead })).get? h
      = some ({ hh.set_first_free_block_flag with
                  next_free := some j, prev_free := some PrevFreePtr.headerFreeHead }) :=
    get?_set_same _ _ _ _ e2
  have e4 : (((s.headers.set h hh.set_first_free_block_flag).set j
        ({ hj.clear_first_free_block_flag with
             prev_free := some (PrevFreePtr.header h) })).set h
        ({ hh.set_first_free_block_flag with
             next_free := some j, prev_free := some PrevFreePtr.headerFreeHead })).get? j
      = some ({ hj.clear_first_free_block_flag with
                  prev_free := some (PrevFreePtr.header h) }) := by
    rw [get?_set_other _ _ _ _ hne2]
    exact get?_set_same _ _ _ _ e1
  have e5 : ({ hh.set_first_free_block_flag with
                 next_free := some j,
                 prev_free := some PrevFreePtr.headerFreeHead } : Header).is_first_free_block
      = true := by
    simp only [Header.is_first_free_block, Header.set_first_free_block_flag,
               FIRST_FREE_BLOCK_FLAG]
    rw [lor_two_and_two]
    rfl
  have e6 : ({ ({ hj.clear_first_free_block_flag with
                    prev_free := some (PrevFreePtr.header h) } : Header) with
                 prev_free := some PrevFreePtr.headerFreeHead } : Header).set_first_free_block_flag
      = hj := by
    simp only [Header.clear_first_free_block_flag, Header.set_first_free_block_flag,
               FIRST_FREE_BLOCK_FLAG]
    rw [hflags, ← hjprev]
  apply Exists.intro
    { s with headers := ((s.headers.set h hh.set_first_free_block_flag).set j
                           ({ hj.clear_first_free_block_flag with
                                prev_free := some (PrevFreePtr.header h) })).set h
                          ({ hh.set_first_free_block_flag with
                               next_free := some j,
                               prev_free := some PrevFreePtr.headerFreeHead }),
             header_free_list := some h }
  apply Exists.intro
    { s with headers := (((s.headers.set h hh.set_first_free_block_flag).set j
                            ({ hj.clear_first_free_block_flag with
                                 prev_free := some (PrevFreePtr.header h) })).set h
                           ({ hh.set_first_free_block_flag with
                                next_free := some j,
                                prev_free := some PrevFreePtr.headerFreeHead })).set j hj,
             header_free_list := some j }
  refine ⟨?_, ?_, ?_, ?_, ?_, rfl, rfl, rfl⟩
  · simp only [insert_to_free_list_head, readPtr, writePtr, hhget, hhead, e1, e2]
  · simp only [remove_from_free_list, writePtr, e3, e4, e5, e6, if_true]
  · exact hhead.symm
  · exact get?_set_same _ _ _ _ e4
  · intro k hk
    by_cases hkj : k = j
    · subst hkj
      rw [get?_set_same _ _ _ _ e4]
      exact hjget.symm
    · rw [get?_set_other _ _ _ _ (fun q => hkj q.symm),
          get?_set_other _ _ _ _ (fun q => hk q.symm),
          get?_set_other _ _ _ _ (fun q => hkj q.symm),
          get?_set_other _ _ _ _ (fun q => hk q.symm)]

/-- Witness for `claim_C10`: the round-trip on the concrete one-element
header free list of `witness_state` (head element at index 0, first-free flag
set), inserting and removing the detached header at index 1. -/
theorem claim_C10_witness :
    ∃ s1 s2,
      insert_to_free_list_head witness_state 1 PrevFreePtr.headerFreeHead = some s1 ∧
      remove_from_free_list s1 1 = some s2 ∧
      s2.header_free_list = witness_state.header_free_list ∧
      s2.headers.get? 0 = some witness_first_header ∧
      (∀ k, k ≠ 1 → s2.headers.get? k = witness_state.headers.get? k) ∧
      s2.segregated_lists = witness_state.segregated_lists ∧
      s2.free_first_level_mask = witness_state.free_first_level_mask ∧
      s2.page_count = witness_state.page_count :=
  claim_C10 witness_state 1 0 witness_new_header witness_first_header rfl rfl
    (by decide) rfl rfl (by decide) (by decide)

end Tlsf
